import Mathlib

/-!
Shallow embedding of `src/CiscoASA/anyconnect.py`: a script that polls Cisco
ASA firewalls for AnyConnect session data over netmiko and appends the parsed
records as a new timestamped sheet of an Excel workbook via openpyxl.

Python-level effects are made explicit:
* stdin is a list of strings, consumed one per `input()` / `getpass()` call;
* a raised exception (or `exit()`) is `Except.error` carrying a `PyError`;
* the netmiko transport is an oracle (`Netmiko`) saying whether
  `ConnectHandler(**device)` succeeds for the device's current settings and
  what `send_command` returns (`none` models a raised exception);
* the workbook file is an `Option Workbook` (`none`: absent or unreadable);
* an openpyxl worksheet is a cell-write log; `ws.cell(r, c, v)` appends to the
  log unless `v` is `None`, which openpyxl ignores (no assignment happens).
-/

namespace AnyConnect

/-- Python exceptions and exits that can escape the script's functions, plus
an artificial `loopTimeout` marking exhaustion of the fuel we give to the
script's unbounded credential-retry loop. -/
inductive PyError where
  | quit
  | eofError
  | indexError
  | attributeError
  | unboundLocal
  | sendFailure
  | valueError
  | loopTimeout
deriving Repr, DecidableEq

/-- One parsed record: a Python dict from column name to value, keys in
insertion order (as produced by the TextFSM record parser). -/
abbrev FieldMap := List (String × String)

/-- Python `d.keys()` in insertion order. -/
def keysOf (r : FieldMap) : List String := r.map Prod.fst

/-- Python `d.get(k)`: `none` when the key is absent. -/
def getKey (r : FieldMap) (k : String) : Option String :=
  (r.find? (fun p => p.1 == k)).map Prod.snd

/-- One element of the `results` list built by `main`: hostnames (strings)
and record lists alternate, and `output_to_excel` distinguishes them by
`type(item) == str`. -/
inductive Item where
  | host (h : String)
  | recs (rs : List FieldMap)
deriving Repr, DecidableEq

/-- A cell-write log entry: (row, column, value). -/
abbrev CellWrite := Nat × Nat × String

/-- The value shown at (row, col): the last write wins. -/
def lookupCell (cells : List CellWrite) (row col : Nat) : Option String :=
  (cells.reverse.find? (fun e => e.1 == row && e.2.1 == col)).map (fun e => e.2.2)

/-- An openpyxl worksheet: title, cell writes, registered tables
(displayName, ref), and the freeze-panes anchor. -/
structure Sheet where
  title : String
  cells : List CellWrite
  tables : List (String × String)
  freezePanes : Option String
deriving Repr, DecidableEq

def Sheet.getCell (s : Sheet) (row col : Nat) : Option String :=
  lookupCell s.cells row col

/-- Models `ws.cell(row, column, value)`: openpyxl only assigns when the
value is not `None`. -/
def Sheet.cellSet (s : Sheet) (row col : Nat) (v : Option String) : Sheet :=
  match v with
  | none => s
  | some str => { s with cells := s.cells ++ [(row, col, str)] }

/-- An openpyxl workbook: its sheets in order (index 0 first). -/
structure Workbook where
  sheets : List Sheet
deriving Repr, DecidableEq

def sheetNames (wb : Workbook) : List String := wb.sheets.map Sheet.title

/-- Python `str.lower`, character by character (these inputs are ASCII). -/
def pyLower (s : String) : String := String.mk (s.data.map Char.toLower)

/-- Python `int(...)` on a non-empty, digits-only string (the only way it is
used below, mirroring openpyxl's `idx.isdigit()` guard before `int(idx)`). -/
def digitsToNat (cs : List Char) : Option Nat :=
  if cs.isEmpty then none
  else some (cs.foldl (fun acc c => acc * 10 + (c.toNat - 48)) 0)

/-- Models openpyxl `avoid_duplicate_name` (used by `create_sheet`): a
case-insensitive title collision is resolved, not rejected, by appending one
past the highest numeric suffix already in use among colliding titles. -/
def avoidDuplicateName (names : List String) (value : String) : String :=
  if names.any (fun n => pyLower n == pyLower value) then
    let counts := names.filterMap (fun n =>
      if (pyLower value).data.isPrefixOf (pyLower n).data then
        let suffix := (pyLower n).data.drop (pyLower value).data.length
        if suffix.all Char.isDigit then digitsToNat suffix else none
      else none)
    value ++ toString ((counts.foldl max 0) + 1)
  else value

/-- Lines 118-123: `load_workbook` inside `try`; on any failure a fresh
`Workbook()` whose default sheet is immediately removed, i.e. no sheets. -/
def loadWorkbook (file : Option Workbook) : Workbook :=
  match file with
  | some wb => wb
  | none => { sheets := [] }

/-- Models openpyxl `get_column_letter` (1 ↦ "A", 26 ↦ "Z", 27 ↦ "AA", ...),
with the column number itself as fuel for the division chain. -/
def columnLetterGo : Nat → Nat → List Char → List Char
  | 0, _, acc => acc
  | _ + 1, 0, acc => acc
  | fuel + 1, n, acc =>
    columnLetterGo fuel ((n - 1) / 26) (Char.ofNat (65 + (n - 1) % 26) :: acc)

def getColumnLetter (n : Nat) : String := String.mk (columnLetterGo n n [])

/-- Python dict built by successive assignment (`column_number[heading] =
element` in the header loop): a later assignment overwrites an earlier one. -/
def dictFold : List (Nat × String) → (String → Option Nat) → String → Option Nat
  | [], d => d
  | p :: ps, d => dictFold ps (fun h => if h == p.2 then some p.1 else d h)

/-- Lines 129-131: `headings = data[1][0].keys()`. `data[1]` missing, or the
first device's record list empty, raises IndexError. (If `data[1]` were a
string, `data[1][0]` takes its first character — IndexError when empty — and
`.keys()` on a character raises AttributeError; unreachable from `main`.) -/
def headingsOf (data : List Item) : Except PyError (List String) :=
  match data.get? 1 with
  | none => Except.error PyError.indexError
  | some (Item.host h) =>
    if h.length = 0 then Except.error PyError.indexError
    else Except.error PyError.attributeError
  | some (Item.recs rs) =>
    match rs.get? 0 with
    | none => Except.error PyError.indexError
    | some r => Except.ok (keysOf r)

/-- Lines 149-159 for one record: hostname into column 1, then for each
heading the record's value into that heading's column. The heading is always
a key of the `column_number` dict (both come from `headings`), so the
`getD 0` default is unreachable. -/
def writeRow (cn : String → Option Nat) (headings : List String) (hostname : String)
    (row : Nat) (row_data : FieldMap) (ws : Sheet) : Sheet :=
  headings.foldl (fun ws h => ws.cellSet row ((cn h).getD 0) (getKey row_data h))
    (ws.cellSet row 1 (some hostname))

/-- Lines 147-159: the inner `for row_data in item` loop. Referencing
`hostname` before any string item has set it raises UnboundLocalError. -/
def writeRecs (cn : String → Option Nat) (headings : List String) :
    List FieldMap → Option String → Nat → Sheet → Except PyError (Nat × Sheet)
  | [], _, row, ws => Except.ok (row, ws)
  | r :: rs, hostname, row, ws =>
    match hostname with
    | none => Except.error PyError.unboundLocal
    | some h =>
      writeRecs cn headings rs hostname (row + 1) (writeRow cn headings h (row + 1) r ws)

/-- Lines 141-159: the outer `for item in data` loop, threading `hostname`
and `row_number`. -/
def writeItems (cn : String → Option Nat) (headings : List String) :
    List Item → Option String → Nat → Sheet → Except PyError (Nat × Sheet)
  | [], _, row, ws => Except.ok (row, ws)
  | Item.host h :: rest, _, row, ws => writeItems cn headings rest (some h) row ws
  | Item.recs rs :: rest, hostname, row, ws =>
    match writeRecs cn headings rs hostname row ws with
    | Except.error e => Except.error e
    | Except.ok (row2, ws2) => writeItems cn headings rest hostname row2 ws2

/-- Lines 103-167: `output_to_excel(tab, data)`, with the file contents made
an explicit argument and result. Returns the saved workbook together with
the `row_number` that the final print reports. An escaping exception is
`Except.error`; `wb.save` is then never reached. The `add_table` call is
modelled here as an unconditional registration; openpyxl 3.x's
duplicate-displayName ValueError is layered on in `output_to_excel_v3x`
below. -/
def output_to_excel (tab : String) (data : List Item) (file : Option Workbook) :
    Except PyError (Workbook × Nat) :=
  let wb : Workbook := loadWorkbook file
  let title := avoidDuplicateName (sheetNames wb) tab
  let ws : Sheet := { title := title, cells := [], tables := [], freezePanes := none }
  let ws := ws.cellSet 1 1 (some "Firewall")
  match headingsOf data with
  | Except.error e => Except.error e
  | Except.ok headings =>
    let number_of_columns := headings.length + 1
    let max_column := getColumnLetter number_of_columns
    let ws := (headings.enumFrom 2).foldl (fun ws p => ws.cellSet 1 p.1 (some p.2)) ws
    let column_number := dictFold (headings.enumFrom 2) (fun _ => none)
    match writeItems column_number headings data none 1 ws with
    | Except.error e => Except.error e
    | Except.ok (row_number, ws) =>
      let table_ref := "A1:" ++ max_column ++ toString row_number
      let table_name := "_" ++ tab
      let ws := { ws with
        tables := ws.tables ++ [(table_name, table_ref)]
        freezePanes := some "D2" }
      Except.ok ({ sheets := ws :: wb.sheets }, row_number)

/-- Contents of the workbook file after a call: `wb.save(excel_file)` runs
only on the success path, so an escaping exception leaves the file as it
was (in particular, a missing file is not created). -/
def fileAfter (result : Except PyError (Workbook × Nat)) (file : Option Workbook) :
    Option Workbook :=
  match result with
  | Except.ok (wb, _) => some wb
  | Except.error _ => file

/-- Table displayNames present anywhere in a workbook (openpyxl 3.x reads
existing tables back in when it loads a file). -/
def tableNames (wb : Workbook) : List String :=
  (wb.sheets.map (fun s => s.tables.map Prod.fst)).flatten

/-- Line 164 under openpyxl 3.x: `ws.add_table` scans every worksheet of
the parent workbook for a table whose displayName equals the new table's
and raises ValueError on a collision, before `ws.freeze_panes` and
`wb.save` run. `output_to_excel` models the registration as an
unconditional append; this composes it with that check. Running the scan
against the loaded workbook after the write pass is observationally the
same as running it inside `add_table`: the cell writes never touch any
sheet's `tables`, the freshly created sheet has none, and every exception
raised earlier (schema discovery, write loop) escapes first in both
orders. (openpyxl also rejects a collision with the workbook's defined
names; the script never creates defined names, so only the table scan is
modelled.) -/
def output_to_excel_v3x (tab : String) (data : List Item)
    (file : Option Workbook) : Except PyError (Workbook × Nat) :=
  match output_to_excel tab data file with
  | Except.error e => Except.error e
  | Except.ok (wb2, n) =>
    if ("_" ++ tab) ∈ tableNames (loadWorkbook file) then Except.error PyError.valueError
    else Except.ok (wb2, n)

/-- A netmiko device dict, as built in `main`. -/
structure Device where
  device_type : String
  host : String
  username : String
  password : String
deriving Repr, DecidableEq

/-- Environment oracle for the netmiko transport: whether
`ConnectHandler(**device)` succeeds for the device's current settings, and
what `send_command` returns (`none` models a raised exception). -/
structure Netmiko where
  connectOk : Device → Bool
  sendCommand : Device → String → Option (List FieldMap)

/-- Observable session lifecycle events, for stating connection hygiene. -/
inductive SessionEvent where
  | connect (host : String)
  | command (host : String) (cmd : String)
  | disconnect (host : String)
deriving Repr, DecidableEq

/-- Lines 55-72: `get_creds()`. Reads a username and a password from stdin;
an answer whose lowercase form is `"q"` runs `exit("QUITTING")`, modelled as
`PyError.quit`. Exhausted stdin would raise EOFError. -/
def get_creds (inputs : List String) :
    Except PyError ((String × String) × List String) :=
  match inputs with
  | [] => Except.error PyError.eofError
  | un :: rest =>
    if pyLower un == "q" then Except.error PyError.quit
    else
      match rest with
      | [] => Except.error PyError.eofError
      | pw :: rest2 =>
        if pyLower pw == "q" then Except.error PyError.quit
        else Except.ok ((un, pw), rest2)

def anyconnectCommand : String := "show vpn-sessiondb anyconnect"

/-- Lines 75-100: `show_vpn_sessiondb(device)`. The `while not done` loop
retries `ConnectHandler` without bound, re-prompting for credentials inside
the bare `except:` branch and mutating the device dict in place; fuel bounds
the loop for totality. On success exactly one command is sent; note the
source has no try/finally around lines 98-99, so an exception raised by
`send_command` escapes before `disconnect` runs. Returns the result, the
mutated device, the remaining stdin, and the session-event trace. -/
def show_vpn_sessiondb (net : Netmiko) :
    Nat → Device → List String →
    Except PyError (List FieldMap × Device × List String) × List SessionEvent
  | 0, _, _ => (Except.error PyError.loopTimeout, [])
  | fuel + 1, device, inputs =>
    if net.connectOk device then
      match net.sendCommand device anyconnectCommand with
      | none =>
        (Except.error PyError.sendFailure,
         [SessionEvent.connect device.host,
          SessionEvent.command device.host anyconnectCommand])
      | some output =>
        (Except.ok (output, device, inputs),
         [SessionEvent.connect device.host,
          SessionEvent.command device.host anyconnectCommand,
          SessionEvent.disconnect device.host])
    else
      match get_creds inputs with
      | Except.error e => (Except.error e, [])
      | Except.ok ((username, password), rest) =>
        show_vpn_sessiondb net fuel
          { device with username := username, password := password } rest

/-- Lines 29-41: the device dicts built in `main` for each inventory host,
all from the one credential pair obtained before the loop. -/
def mkDevice (host username password : String) : Device :=
  { device_type := "cisco_asa", host := host, username := username, password := password }

/-- Lines 46-51 of `main`, generalized from the two hardcoded firewalls to
an arbitrary host inventory: for each host in order, append the hostname and
then the device's records to `results`. Each device dict starts from the
credentials obtained before the loop; retries inside `show_vpn_sessiondb`
mutate only that device's dict. -/
def runInventory (net : Netmiko) (fuel : Nat) (username password : String) :
    List String → List String → Except PyError (List Item × List String)
  | [], inputs => Except.ok ([], inputs)
  | host :: hosts, inputs =>
    match (show_vpn_sessiondb net fuel (mkDevice host username password) inputs).1 with
    | Except.error e => Except.error e
    | Except.ok (recs, _, inputs2) =>
      match runInventory net fuel username password hosts inputs2 with
      | Except.error e => Except.error e
      | Except.ok (items, inputs3) => Except.ok (Item.host host :: Item.recs recs :: items, inputs3)

/-- The two firewalls hardcoded in `main`. -/
def defaultInventory : List String := ["fwl-dc1-vpn-a", "fwl-dc0-inet-a"]

/-- Lines 16-52: `main()`, with the inventory, the timestamp tab name, stdin
and the workbook file as explicit inputs. `get_creds` runs once up front;
then the inventory is polled in order; then `output_to_excel` (under
openpyxl 3.x `add_table` semantics) writes the report. An `Except.error`
models the process dying with that exception, the file untouched. -/
def main (net : Netmiko) (fuel : Nat) (inventory : List String) (tab : String)
    (inputs : List String) (file : Option Workbook) : Except PyError (Workbook × Nat) :=
  match get_creds inputs with
  | Except.error e => Except.error e
  | Except.ok ((username, password), rest) =>
    match runInventory net fuel username password inventory rest with
    | Except.error e => Except.error e
    | Except.ok (results, _) => output_to_excel_v3x tab results file

/-! ### Derived shapes used to state the claims -/

/-- A PollRun (the spec's name for per-device results) flattened into the
alternating `results` list that `main` builds. -/
def flattenRun : List (String × List FieldMap) → List Item
  | [] => []
  | (h, rs) :: rest => Item.host h :: Item.recs rs :: flattenRun rest

/-- The data rows a PollRun should yield, in order: one (host, record) pair
per record. -/
def rowsOf : List (String × List FieldMap) → List (String × FieldMap)
  | [] => []
  | (h, rs) :: rest => rs.map (fun r => (h, r)) ++ rowsOf rest

/-- Number of records in a `results` list. -/
def totalRecords : List Item → Nat
  | [] => 0
  | Item.host _ :: rest => totalRecords rest
  | Item.recs rs :: rest => rs.length + totalRecords rest

/-- Modelled from the spec's words, for comparison with the code: the key
set of the first record of the first device in the run that has at least one
record. -/
def firstNonEmptySchema : List (String × List FieldMap) → Option (List String)
  | [] => none
  | (_, r :: _) :: _ => some (keysOf r)
  | (_, []) :: rest => firstNonEmptySchema rest

/-- Expected header-row writes: "Firewall" at (1,1), then the schema keys at
columns 2.. in first-seen order. -/
def headerCells (headings : List String) : List CellWrite :=
  (1, 1, "Firewall") :: (headings.enumFrom 2).map (fun p => (1, p.1, p.2))

/-- Expected writes for one data row: the hostname at column 1, then for
each schema key present in the record its value at that key's column
(missing keys produce no write, hence an empty cell). -/
def recordCells (headings : List String) (row : Nat) (hostname : String)
    (r : FieldMap) : List CellWrite :=
  (row, 1, hostname) ::
    (headings.enumFrom 2).filterMap (fun p => (getKey r p.2).map (fun v => (row, p.1, v)))

/-- Expected writes for all data rows, starting at `startRow`. -/
def bodyCells (headings : List String) :
    List (String × FieldMap) → Nat → List CellWrite
  | [], _ => []
  | (h, r) :: rest, startRow =>
    recordCells headings startRow h r ++ bodyCells headings rest (startRow + 1)

/-! ### Helper lemmas about the write machinery -/

theorem enumFrom_snd_mem {α : Type} : ∀ (hs : List α) (n : Nat) (p : Nat × α),
    p ∈ hs.enumFrom n → p.2 ∈ hs := by
  intro hs
  induction hs with
  | nil => intro n p hp; simp [List.enumFrom] at hp
  | cons a as ih =>
    intro n p hp
    rw [List.enumFrom_cons] at hp
    rcases List.mem_cons.mp hp with h | h
    · subst h; simp
    · exact List.mem_cons_of_mem a (ih (n + 1) p h)

theorem mem_enumFrom_ex {α : Type} : ∀ (hs : List α) (n : Nat) (p : Nat × α),
    p ∈ hs.enumFrom n → ∃ j, hs.get? j = some p.2 ∧ p.1 = n + j := by
  intro hs
  induction hs with
  | nil => intro n p hp; simp [List.enumFrom] at hp
  | cons a as ih =>
    intro n p hp
    rw [List.enumFrom_cons] at hp
    rcases List.mem_cons.mp hp with h | h
    · subst h; exact ⟨0, rfl, rfl⟩
    · obtain ⟨j, hj, hfst⟩ := ih (n + 1) p h
      exact ⟨j + 1, hj, by omega⟩

theorem dictFold_absent : ∀ (ps : List (Nat × String)) (d : String → Option Nat)
    (h : String), (∀ p ∈ ps, p.2 ≠ h) → dictFold ps d h = d h := by
  intro ps
  induction ps with
  | nil => intro d h _; rfl
  | cons p ps ih =>
    intro d h hne
    rw [dictFold, ih _ _ (fun q hq => hne q (List.mem_cons_of_mem p hq))]
    have : (h == p.2) = false := beq_eq_false_iff_ne.mpr fun he => hne p (by simp) he.symm
    simp [this]

theorem dictFold_get : ∀ (hs : List String) (n : Nat) (d : String → Option Nat)
    (i : Nat) (k : String), hs.Nodup → hs.get? i = some k →
    dictFold (hs.enumFrom n) d k = some (n + i) := by
  intro hs
  induction hs with
  | nil => intro n d i k _ hk; simp [List.get?] at hk
  | cons a as ih =>
    intro n d i k hnd hk
    rw [List.enumFrom_cons, dictFold]
    rcases i with _ | j
    · simp only [List.get?] at hk
      injection hk with hk; subst hk
      have hout : ∀ p ∈ as.enumFrom (n + 1), p.2 ≠ a := by
        intro p hp he
        exact (List.nodup_cons.mp hnd).1 (he ▸ enumFrom_snd_mem as (n + 1) p hp)
      rw [dictFold_absent _ _ _ hout]
      simp
    · simp only [List.get?] at hk
      have := ih (n + 1) (fun h => if h == a then some n else d h) j k
        (List.nodup_cons.mp hnd).2 hk
      rw [this]; congr 1; omega

theorem headerFold_eq : ∀ (ps : List (Nat × String)) (ws : Sheet),
    ps.foldl (fun ws p => ws.cellSet 1 p.1 (some p.2)) ws
      = { ws with cells := ws.cells ++ ps.map (fun p => (1, p.1, p.2)) } := by
  intro ps
  induction ps with
  | nil => intro ws; simp
  | cons p ps ih =>
    intro ws
    rw [List.foldl_cons, ih]
    simp [Sheet.cellSet]

theorem rowFold_eq : ∀ (hs : List String) (n row : Nat) (cn : String → Option Nat)
    (r : FieldMap) (ws : Sheet),
    (∀ i k, hs.get? i = some k → cn k = some (n + i)) →
    hs.foldl (fun ws h => ws.cellSet row ((cn h).getD 0) (getKey r h)) ws
      = { ws with cells := (ws.cells ++ (hs.enumFrom n).filterMap
            (fun p => (getKey r p.2).map (fun v => (row, p.1, v)))) } := by
  intro hs
  induction hs with
  | nil => intro n row cn r ws _; simp [List.enumFrom]
  | cons a as ih =>
    intro n row cn r ws hcn
    have ha : cn a = some n := by
      have := hcn 0 a rfl
      simpa using this
    have htail : ∀ i k, as.get? i = some k → cn k = some ((n + 1) + i) := by
      intro i k hk
      have := hcn (i + 1) k (by simpa [List.get?] using hk)
      rw [this]; congr 1; omega
    rw [List.foldl_cons, List.enumFrom_cons]
    rcases hv : getKey r a with _ | v
    · have hstep : ws.cellSet row ((cn a).getD 0) none = ws := rfl
      rw [hstep, ih (n + 1) row cn r ws htail]
      simp [hv]
    · have hstep : ws.cellSet row ((cn a).getD 0) (some v)
          = { ws with cells := (ws.cells ++ [(row, n, v)]) } := by
        rw [ha]; rfl
      rw [hstep, ih (n + 1) row cn r _ htail]
      simp [hv, Sheet.mk.injEq, List.append_assoc]

theorem writeRow_eq (cn : String → Option Nat) (hs : List String)
    (hcn : ∀ i k, hs.get? i = some k → cn k = some (2 + i))
    (host : String) (row : Nat) (r : FieldMap) (ws : Sheet) :
    writeRow cn hs host row r ws
      = { ws with cells := ws.cells ++ recordCells hs row host r } := by
  rw [writeRow, rowFold_eq hs 2 row cn r _ hcn]
  simp [Sheet.cellSet, recordCells]

theorem writeRecs_eq (cn : String → Option Nat) (hs : List String)
    (hcn : ∀ i k, hs.get? i = some k → cn k = some (2 + i)) :
    ∀ (rs : List FieldMap) (host : String) (row : Nat) (ws : Sheet),
    writeRecs cn hs rs (some host) row ws
      = Except.ok (row + rs.length,
          { ws with cells := ws.cells
              ++ bodyCells hs (rs.map (fun r => (host, r))) (row + 1) }) := by
  intro rs
  induction rs with
  | nil => intro host row ws; simp [writeRecs, bodyCells]
  | cons r rs ih =>
    intro host row ws
    rw [writeRecs, writeRow_eq cn hs hcn, ih host (row + 1)]
    simp only [List.map_cons, bodyCells, List.length_cons, Except.ok.injEq,
      Prod.mk.injEq, Sheet.mk.injEq, List.append_assoc, true_and, and_true]
    omega

theorem bodyCells_append (hs : List String) : ∀ (l1 l2 : List (String × FieldMap))
    (s : Nat), bodyCells hs (l1 ++ l2) s
      = bodyCells hs l1 s ++ bodyCells hs l2 (s + l1.length) := by
  intro l1
  induction l1 with
  | nil => intro l2 s; simp [bodyCells]
  | cons p l1 ih =>
    intro l2 s
    rcases p with ⟨h, r⟩
    have harith : s + (l1.length + 1) = s + 1 + l1.length := by omega
    simp only [List.cons_append, List.append_eq, bodyCells, ih l2 (s + 1),
      List.length_cons, harith, List.append_assoc]

theorem writeItems_flatten (cn : String → Option Nat) (hs : List String)
    (hcn : ∀ i k, hs.get? i = some k → cn k = some (2 + i)) :
    ∀ (run : List (String × List FieldMap)) (hostname : Option String)
      (row : Nat) (ws : Sheet),
    writeItems cn hs (flattenRun run) hostname row ws
      = Except.ok (row + (rowsOf run).length,
          { ws with cells := ws.cells ++ bodyCells hs (rowsOf run) (row + 1) }) := by
  intro run
  induction run with
  | nil => intro hostname row ws; simp [flattenRun, writeItems, rowsOf, bodyCells]
  | cons p rest ih =>
    intro hostname row ws
    rcases p with ⟨h, rs⟩
    have harith : row + rs.length + 1 = row + 1 + rs.length := by omega
    simp only [flattenRun, writeItems, writeRecs_eq cn hs hcn, ih, rowsOf,
      bodyCells_append, List.length_append, List.length_map, harith,
      Except.ok.injEq, Prod.mk.injEq, Sheet.mk.injEq, List.append_assoc,
      true_and, and_true]
    omega

/-- Full characterization of a successful append: the run has a non-empty
first device, so the schema is that device's first record's keys; one new
sheet is put at index 0 holding the header row, all data rows, the table
registration and the freeze anchor; the reported count is the final
`row_number`, i.e. data rows plus the header row. -/
theorem output_spec (tab : String) (file : Option Workbook) (h0 : String)
    (r0 : FieldMap) (rs0 : List FieldMap) (rest : List (String × List FieldMap))
    (hnd : (keysOf r0).Nodup) :
    output_to_excel tab (flattenRun ((h0, r0 :: rs0) :: rest)) file
      = Except.ok
          ({ sheets :=
              { title := avoidDuplicateName (sheetNames (loadWorkbook file)) tab
                cells := headerCells (keysOf r0)
                  ++ bodyCells (keysOf r0) (rowsOf ((h0, r0 :: rs0) :: rest)) 2
                tables := [("_" ++ tab,
                  "A1:" ++ getColumnLetter ((keysOf r0).length + 1)
                    ++ toString ((rowsOf ((h0, r0 :: rs0) :: rest)).length + 1))]
                freezePanes := some "D2" } :: (loadWorkbook file).sheets },
           (rowsOf ((h0, r0 :: rs0) :: rest)).length + 1) := by
  have hhead : headingsOf (flattenRun ((h0, r0 :: rs0) :: rest))
      = Except.ok (keysOf r0) := by
    simp [flattenRun, headingsOf, List.get?]
  have hcn : ∀ i k, (keysOf r0).get? i = some k →
      dictFold ((keysOf r0).enumFrom 2) (fun _ => none) k = some (2 + i) :=
    fun i k hk => dictFold_get (keysOf r0) 2 _ i k hnd hk
  have hN : 1 + (rowsOf ((h0, r0 :: rs0) :: rest)).length
      = (rowsOf ((h0, r0 :: rs0) :: rest)).length + 1 := by omega
  simp only [output_to_excel, hhead]
  rw [headerFold_eq, writeItems_flatten _ _ hcn]
  simp [headerCells, Sheet.mk.injEq, hN, Sheet.cellSet]

/-- A run whose first device has at least one record always appends
successfully, whatever the later devices' records look like. -/
theorem writeRecs_ok (cn : String → Option Nat) (hs : List String) :
    ∀ (rs : List FieldMap) (host : String) (row : Nat) (ws : Sheet),
    ∃ n ws2, writeRecs cn hs rs (some host) row ws = Except.ok (n, ws2) := by
  intro rs
  induction rs with
  | nil => intro host row ws; exact ⟨row, ws, rfl⟩
  | cons r rs ih =>
    intro host row ws
    rw [writeRecs]
    exact ih host (row + 1) _

theorem writeItems_flatten_ok (cn : String → Option Nat) (hs : List String) :
    ∀ (run : List (String × List FieldMap)) (hostname : Option String)
      (row : Nat) (ws : Sheet),
    ∃ n ws2, writeItems cn hs (flattenRun run) hostname row ws = Except.ok (n, ws2) := by
  intro run
  induction run with
  | nil => intro hostname row ws; exact ⟨row, ws, rfl⟩
  | cons p rest ih =>
    intro hostname row ws
    rcases p with ⟨h, rs⟩
    rw [flattenRun, writeItems, writeItems]
    obtain ⟨n1, ws1, h1⟩ := writeRecs_ok cn hs rs h row ws
    rw [h1]
    exact ih (some h) n1 ws1

theorem output_ok_of_first_nonempty (tab : String) (file : Option Workbook)
    (h0 : String) (r0 : FieldMap) (rs0 : List FieldMap)
    (rest : List (String × List FieldMap)) :
    ∃ wb n, output_to_excel tab (flattenRun ((h0, r0 :: rs0) :: rest)) file
      = Except.ok (wb, n) := by
  have hhead : headingsOf (flattenRun ((h0, r0 :: rs0) :: rest))
      = Except.ok (keysOf r0) := by
    simp [flattenRun, headingsOf, List.get?]
  rw [output_to_excel, hhead]
  simp only
  obtain ⟨n, ws2, h2⟩ := writeItems_flatten_ok
    (dictFold ((keysOf r0).enumFrom 2) fun _ => none) (keysOf r0)
    ((h0, r0 :: rs0) :: rest) none 1 _
  rw [h2]
  exact ⟨_, _, rfl⟩

theorem lookupCell_eq_none (cells : List CellWrite) (row col : Nat)
    (h : ∀ e ∈ cells, ¬(e.1 = row ∧ e.2.1 = col)) :
    lookupCell cells row col = none := by
  have hfind : cells.reverse.find? (fun e => e.1 == row && e.2.1 == col) = none := by
    rw [List.find?_eq_none]
    intro e he
    have := h e (List.mem_reverse.mp he)
    simp only [Bool.and_eq_true, beq_iff_eq]
    tauto
  rw [lookupCell, hfind]
  rfl

theorem get_creds_error_cases (inputs : List String) (e : PyError)
    (h : get_creds inputs = Except.error e) :
    e = PyError.quit ∨ e = PyError.eofError := by
  rcases inputs with _ | ⟨un, _ | ⟨pw, rest2⟩⟩
  · simp only [get_creds, Except.error.injEq] at h
    exact Or.inr h.symm
  · simp only [get_creds] at h
    split at h
    · simp only [Except.error.injEq] at h
      exact Or.inl h.symm
    · simp only [Except.error.injEq] at h
      exact Or.inr h.symm
  · simp only [get_creds] at h
    split at h
    · simp only [Except.error.injEq] at h
      exact Or.inl h.symm
    · split at h
      · simp only [Except.error.injEq] at h
        exact Or.inl h.symm
      · simp at h

theorem show_step_connect_none (net : Netmiko) (fuel : Nat) (dev : Device)
    (inputs : List String) (hc : net.connectOk dev = true)
    (hs : net.sendCommand dev anyconnectCommand = none) :
    show_vpn_sessiondb net (fuel + 1) dev inputs
      = (Except.error PyError.sendFailure,
         [SessionEvent.connect dev.host, SessionEvent.command dev.host anyconnectCommand]) := by
  rw [show_vpn_sessiondb, if_pos hc, hs]

theorem show_step_connect_some (net : Netmiko) (fuel : Nat) (dev : Device)
    (inputs : List String) (o : List FieldMap) (hc : net.connectOk dev = true)
    (hs : net.sendCommand dev anyconnectCommand = some o) :
    show_vpn_sessiondb net (fuel + 1) dev inputs
      = (Except.ok (o, dev, inputs),
         [SessionEvent.connect dev.host, SessionEvent.command dev.host anyconnectCommand,
          SessionEvent.disconnect dev.host]) := by
  rw [show_vpn_sessiondb, if_pos hc, hs]

theorem show_step_retry (net : Netmiko) (fuel : Nat) (dev : Device)
    (inputs : List String) (u p : String) (rest : List String)
    (hc : net.connectOk dev = false)
    (hg : get_creds inputs = Except.ok ((u, p), rest)) :
    show_vpn_sessiondb net (fuel + 1) dev inputs
      = show_vpn_sessiondb net fuel { dev with username := u, password := p } rest := by
  rw [show_vpn_sessiondb, if_neg (by simp [hc]), hg]

theorem show_step_err (net : Netmiko) (fuel : Nat) (dev : Device)
    (inputs : List String) (e : PyError) (hc : net.connectOk dev = false)
    (hg : get_creds inputs = Except.error e) :
    show_vpn_sessiondb net (fuel + 1) dev inputs = (Except.error e, []) := by
  rw [show_vpn_sessiondb, if_neg (by simp [hc]), hg]

theorem show_ok_trace (net : Netmiko) : ∀ (fuel : Nat) (dev : Device)
    (inputs : List String) (out : List FieldMap × Device × List String),
    (show_vpn_sessiondb net fuel dev inputs).1 = Except.ok out →
    (show_vpn_sessiondb net fuel dev inputs).2
      = [SessionEvent.connect dev.host, SessionEvent.command dev.host anyconnectCommand,
         SessionEvent.disconnect dev.host] := by
  intro fuel
  induction fuel with
  | zero => intro dev inputs out h; simp [show_vpn_sessiondb] at h
  | succ fuel ih =>
    intro dev inputs out h
    by_cases hc : net.connectOk dev = true
    · rcases hs : net.sendCommand dev anyconnectCommand with _ | o
      · rw [show_step_connect_none net fuel dev inputs hc hs] at h
        simp at h
      · rw [show_step_connect_some net fuel dev inputs o hc hs]
    · have hc2 : net.connectOk dev = false := by simpa using hc
      rcases hg : get_creds inputs with e | ⟨⟨u, p⟩, rest⟩
      · rw [show_step_err net fuel dev inputs e hc2 hg] at h
        simp at h
      · rw [show_step_retry net fuel dev inputs u p rest hc2 hg] at h ⊢
        exact ih _ rest out h

theorem show_sendfail_trace (net : Netmiko) : ∀ (fuel : Nat) (dev : Device)
    (inputs : List String),
    (show_vpn_sessiondb net fuel dev inputs).1 = Except.error PyError.sendFailure →
    (show_vpn_sessiondb net fuel dev inputs).2
      = [SessionEvent.connect dev.host, SessionEvent.command dev.host anyconnectCommand] := by
  intro fuel
  induction fuel with
  | zero => intro dev inputs h; simp [show_vpn_sessiondb] at h
  | succ fuel ih =>
    intro dev inputs h
    by_cases hc : net.connectOk dev = true
    · rcases hs : net.sendCommand dev anyconnectCommand with _ | o
      · rw [show_step_connect_none net fuel dev inputs hc hs]
      · rw [show_step_connect_some net fuel dev inputs o hc hs] at h
        simp at h
    · have hc2 : net.connectOk dev = false := by simpa using hc
      rcases hg : get_creds inputs with e | ⟨⟨u, p⟩, rest⟩
      · rw [show_step_err net fuel dev inputs e hc2 hg] at h
        rcases get_creds_error_cases inputs e hg with h2 | h2 <;> subst h2 <;> simp at h
      · rw [show_step_retry net fuel dev inputs u p rest hc2 hg] at h ⊢
        exact ih _ rest h

/-! ### Claim theorems -/

/-- C1 (amended): the column schema is taken from the first record of the
*first* device of the run, unconditionally (`data[1][0]`): when the first
device has zero records the append dies with an IndexError — even if a later
device has records — and nothing is saved; in particular a run in which
every device has zero records (or an empty run) fails the same way, with a
plain IndexError rather than a dedicated EmptySchema error, and no sheet is
written. When the first device has a record, the schema is that record's
key set. -/
theorem c1_schema_from_first_device :
    ∀ (tab : String) (file : Option Workbook),
    (output_to_excel tab (flattenRun []) file = Except.error PyError.indexError) ∧
    (∀ (h : String) (rest : List (String × List FieldMap)),
      output_to_excel tab (flattenRun ((h, []) :: rest)) file
          = Except.error PyError.indexError ∧
      fileAfter (output_to_excel tab (flattenRun ((h, []) :: rest)) file) file = file) ∧
    (∀ (h : String) (r : FieldMap) (rs : List FieldMap)
       (rest : List (String × List FieldMap)),
      headingsOf (flattenRun ((h, r :: rs) :: rest)) = Except.ok (keysOf r)) := by
  intro tab file
  refine ⟨?_, ?_, ?_⟩
  · simp [output_to_excel, headingsOf, flattenRun]
  · intro h rest
    constructor
    · simp [output_to_excel, headingsOf, flattenRun, List.get?]
    · simp [output_to_excel, headingsOf, flattenRun, List.get?, fileAfter]
  · intro h r rs rest
    simp [headingsOf, flattenRun, List.get?]

/-- C1 counterexample: a run whose first device has no records but whose
second device does. The claim's schema rule picks device B's keys and
implies a successful append with that schema; the code instead dies with an
IndexError evaluating `data[1][0]`. -/
theorem c1_counterexample :
    output_to_excel "T"
        (flattenRun [("A", []), ("B", [[("user", "alice"), ("ip", "10.0.0.1")]])]) none
      = Except.error PyError.indexError ∧
    firstNonEmptySchema [("A", []), ("B", [[("user", "alice"), ("ip", "10.0.0.1")]])]
      = some ["user", "ip"] := ⟨rfl, rfl⟩

/-- C2 counterexample: the spec's Scenario A (one record total) expects a
reported row count of 1; the code reports `row_number`, which also counts
the header row, so it reports 2. -/
theorem c2_counterexample :
    (output_to_excel "2024_01_01_00_00_00"
        (flattenRun [("deviceA", [[("user", "alice"), ("ip", "10.0.0.1")]]),
          ("deviceB", [])]) none).toOption.map (fun p => p.2) = some 2 ∧
    totalRecords (flattenRun [("deviceA", [[("user", "alice"), ("ip", "10.0.0.1")]]),
      ("deviceB", [])]) = 1 := ⟨rfl, rfl⟩

/-- C2 (amended): the reported count equals the number of data rows written
plus one: `row_number` starts at 1 on the header row, is incremented once
per record, and the final print reports it verbatim. -/
theorem c2_reported_count (tab : String) (file : Option Workbook) (h0 : String)
    (r0 : FieldMap) (rs0 : List FieldMap) (rest : List (String × List FieldMap))
    (hnd : (keysOf r0).Nodup) :
    ∃ wb, output_to_excel tab (flattenRun ((h0, r0 :: rs0) :: rest)) file
      = Except.ok (wb, (rowsOf ((h0, r0 :: rs0) :: rest)).length + 1) :=
  ⟨_, output_spec tab file h0 r0 rs0 rest hnd⟩

theorem c2_reported_count_witness :
    (keysOf [("user", "alice")]).Nodup ∧
    ∃ wb, output_to_excel "T" (flattenRun [("A", [[("user", "alice")]])]) none
      = Except.ok (wb, 2) :=
  ⟨by decide, c2_reported_count "T" none "A" [("user", "alice")] [] [] (by decide)⟩

/-- A document already holding a sheet named "T", for exercising the
duplicate-sheet-name path. -/
def wbT : Workbook :=
  { sheets := [{ title := "T", cells := [], tables := [], freezePanes := none }] }

/-- A document shaped like the script's own prior output for tab "T": the
sheet named "T" carries the registered table "_T". A second invocation with
the same tab collides on the table displayName, not the sheet title. -/
def wbTprior : Workbook :=
  { sheets := [{ title := "T", cells := [(1, 1, "Firewall")],
                 tables := [("_T", "A1:B2")], freezePanes := some "D2" }] }

/-- C3 counterexample: appending under a sheet name that already exists in
the document (and is not paired with a table named "_T"). The code neither
fails with a DuplicateSheet error nor leaves the document unmodified:
openpyxl deduplicates the title and a second sheet ("T1") is created and
saved alongside the old one. -/
theorem c3_counterexample :
    (output_to_excel_v3x "T" (flattenRun [("deviceA", [[("user", "alice")]])])
        (some wbT)).toOption.map
      (fun p => p.1.sheets.map Sheet.title) = some ["T1", "T"] := rfl

/-- C3 (amended): there is no sheet-name duplicate check: `create_sheet`
deduplicates a colliding title, so no DuplicateSheet error exists. What
decides the append is the derived table name `"_" ++ tab`: when no sheet of
the document already carries a table with that displayName, the append
succeeds, adding exactly one new sheet (under the deduplicated title) in
front of the unchanged existing sheets — the document IS modified; when
some sheet does carry it — in particular on a double invocation against the
script's own prior output, whose sheet `tab` holds the table `"_" ++ tab` —
openpyxl's `add_table` raises ValueError before `wb.save`, so the run fails
and the document on disk is left unmodified (but by the table check, never
by any sheet-name check). -/
theorem c3_duplicate_outcome (tab : String) (wb0 : Workbook) (h0 : String)
    (r0 : FieldMap) (rs0 : List FieldMap) (rest : List (String × List FieldMap))
    (hnd : (keysOf r0).Nodup) (_hdup : tab ∈ sheetNames wb0) :
    (("_" ++ tab) ∉ tableNames wb0 →
      ∃ ws n, output_to_excel_v3x tab (flattenRun ((h0, r0 :: rs0) :: rest)) (some wb0)
        = Except.ok ({ sheets := ws :: wb0.sheets }, n)) ∧
    (("_" ++ tab) ∈ tableNames wb0 →
      output_to_excel_v3x tab (flattenRun ((h0, r0 :: rs0) :: rest)) (some wb0)
          = Except.error PyError.valueError ∧
      fileAfter (output_to_excel_v3x tab (flattenRun ((h0, r0 :: rs0) :: rest))
          (some wb0)) (some wb0) = some wb0) := by
  have hok := output_spec tab (some wb0) h0 r0 rs0 rest hnd
  constructor
  · intro hfree
    rw [output_to_excel_v3x, hok]
    simp only [loadWorkbook]
    rw [if_neg hfree]
    exact ⟨_, _, rfl⟩
  · intro htaken
    have herr : output_to_excel_v3x tab (flattenRun ((h0, r0 :: rs0) :: rest)) (some wb0)
        = Except.error PyError.valueError := by
      rw [output_to_excel_v3x, hok]
      simp only [loadWorkbook]
      rw [if_pos htaken]
    exact ⟨herr, by rw [herr]; rfl⟩

theorem c3_duplicate_outcome_witness :
    ((keysOf [("user", "alice")]).Nodup ∧ "T" ∈ sheetNames wbT ∧
      ("_" ++ "T") ∉ tableNames wbT ∧ "T" ∈ sheetNames wbTprior ∧
      ("_" ++ "T") ∈ tableNames wbTprior) ∧
    (∃ ws n, output_to_excel_v3x "T" (flattenRun [("A", [[("user", "alice")]])]) (some wbT)
      = Except.ok ({ sheets := ws :: wbT.sheets }, n)) ∧
    output_to_excel_v3x "T" (flattenRun [("A", [[("user", "alice")]])]) (some wbTprior)
      = Except.error PyError.valueError :=
  ⟨⟨by decide, by decide, by decide, by decide, by decide⟩,
   (c3_duplicate_outcome "T" wbT "A" [("user", "alice")] [] [] (by decide)
     (by decide)).1 (by decide),
   ((c3_duplicate_outcome "T" wbTprior "A" [("user", "alice")] [] [] (by decide)
     (by decide)).2 (by decide)).1⟩

/-- Unfolding step for `runInventory` on a device whose poll succeeded. -/
theorem runInventory_cons_ok (net : Netmiko) (fuel : Nat) (u p host : String)
    (hosts : List String) (inputs : List String) (recs : List FieldMap)
    (dev2 : Device) (inputs2 : List String)
    (hshow : (show_vpn_sessiondb net fuel (mkDevice host u p) inputs).1
      = Except.ok (recs, dev2, inputs2)) :
    runInventory net fuel u p (host :: hosts) inputs
      = match runInventory net fuel u p hosts inputs2 with
        | Except.error e => Except.error e
        | Except.ok (items, inputs3) =>
            Except.ok (Item.host host :: Item.recs recs :: items, inputs3) := by
  rw [runInventory, hshow]

/-- C4: the poller emits exactly one hostname item followed by exactly one
record-list item per inventory device, in inventory order — the `results`
list is the flattening of a PollRun whose hosts are the inventory —
regardless of how many credential retries `show_vpn_sessiondb` performed;
failed establishment attempts never add entries. -/
theorem c4_order_preservation (net : Netmiko) (fuel : Nat) (u p : String) :
    ∀ (inventory : List String) (inputs : List String) (items : List Item)
      (rest : List String),
    runInventory net fuel u p inventory inputs = Except.ok (items, rest) →
    ∃ run : List (String × List FieldMap),
      items = flattenRun run ∧ run.map Prod.fst = inventory := by
  intro inventory
  induction inventory with
  | nil =>
    intro inputs items rest h
    simp only [runInventory, Except.ok.injEq, Prod.mk.injEq] at h
    exact ⟨[], h.1.symm, rfl⟩
  | cons host hosts ih =>
    intro inputs items rest h
    rcases hshow : (show_vpn_sessiondb net fuel (mkDevice host u p) inputs).1
      with e | ⟨recs, dev2, inputs2⟩
    · rw [runInventory, hshow] at h
      simp at h
    · rw [runInventory_cons_ok net fuel u p host hosts inputs recs dev2 inputs2 hshow] at h
      rcases hrun : runInventory net fuel u p hosts inputs2 with e2 | ⟨items2, rest2⟩
      · rw [hrun] at h
        simp at h
      · rw [hrun] at h
        simp only [Except.ok.injEq, Prod.mk.injEq] at h
        obtain ⟨run2, hitems2, hmap⟩ := ih inputs2 items2 rest2 hrun
        refine ⟨(host, recs) :: run2, ?_, ?_⟩
        · rw [← h.1, flattenRun, ← hitems2]
        · simp [hmap]

theorem c4_order_preservation_witness :
    ∃ run : List (String × List FieldMap),
      [Item.host "a", Item.recs [[("k", "v")]], Item.host "b", Item.recs [[("k", "v")]]]
          = flattenRun run ∧
      run.map Prod.fst = ["a", "b"] :=
  c4_order_preservation
    { connectOk := fun _ => true, sendCommand := fun _ _ => some [[("k", "v")]] }
    1 "u" "p" ["a", "b"] [] _ [] rfl

/-- C5: the quit sentinel aborts the whole run and nothing partial is ever
persisted: quit at the initial prompt makes `main` die with the quit exit
before touching any device or the document; quit at a re-prompt inside the
retry loop makes `show_vpn_sessiondb` die with it (and `main` propagates any
such error); and every erroring run leaves the document file exactly as it
was — neither created nor modified, since `wb.save` is never reached. -/
theorem c5_quit_aborts_run (net : Netmiko) (fuel : Nat) (inventory : List String)
    (tab : String) (inputs : List String) (file : Option Workbook) :
    (get_creds inputs = Except.error PyError.quit →
      main net fuel inventory tab inputs file = Except.error PyError.quit) ∧
    (∀ (dev : Device) (inputs2 : List String) (f2 : Nat),
      net.connectOk dev = false → get_creds inputs2 = Except.error PyError.quit →
      (show_vpn_sessiondb net (f2 + 1) dev inputs2).1 = Except.error PyError.quit) ∧
    (∀ (e : PyError) (u pw : String) (rest2 : List String),
      get_creds inputs = Except.ok ((u, pw), rest2) →
      runInventory net fuel u pw inventory rest2 = Except.error e →
      main net fuel inventory tab inputs file = Except.error e) ∧
    (∀ e, main net fuel inventory tab inputs file = Except.error e →
      fileAfter (main net fuel inventory tab inputs file) file = file) := by
  refine ⟨?_, ?_, ?_, ?_⟩
  · intro hq
    simp [main, hq]
  · intro dev inputs2 f2 hc hq
    rw [show_step_err net f2 dev inputs2 PyError.quit hc hq]
  · intro e u pw rest2 hok hrun
    simp [main, hok, hrun]
  · intro e he
    rw [he]
    rfl

theorem c5_quit_aborts_run_witness :
    main { connectOk := fun _ => true, sendCommand := fun _ _ => some [] }
        1 ["a"] "T" ["q"] none = Except.error PyError.quit :=
  (c5_quit_aborts_run { connectOk := fun _ => true, sendCommand := fun _ _ => some [] }
    1 ["a"] "T" ["q"] none).1 rfl

/-- C6: the written sheet's cell log is exactly the header row — the fixed
"Firewall" label at (1,1) and the schema keys at columns 2.. in first-seen
order — followed, row by row in PollRun order starting at row 2, by each
record's hostname at column 1 and its values in the matching schema
columns. -/
theorem c6_sheet_layout (tab : String) (file : Option Workbook) (h0 : String)
    (r0 : FieldMap) (rs0 : List FieldMap) (rest : List (String × List FieldMap))
    (hnd : (keysOf r0).Nodup) :
    ∃ ws n, output_to_excel tab (flattenRun ((h0, r0 :: rs0) :: rest)) file
        = Except.ok ({ sheets := ws :: (loadWorkbook file).sheets }, n) ∧
      ws.cells = headerCells (keysOf r0)
        ++ bodyCells (keysOf r0) (rowsOf ((h0, r0 :: rs0) :: rest)) 2 :=
  ⟨_, _, output_spec tab file h0 r0 rs0 rest hnd, rfl⟩

theorem c6_sheet_layout_witness :
    (keysOf [("user", "alice")]).Nodup ∧
    ∃ ws n, output_to_excel "T" (flattenRun [("A", [[("user", "alice")]])]) none
        = Except.ok ({ sheets := ws :: (loadWorkbook none).sheets }, n) ∧
      ws.cells = headerCells (keysOf [("user", "alice")])
        ++ bodyCells (keysOf [("user", "alice")])
            (rowsOf [("A", [[("user", "alice")]])]) 2 :=
  ⟨by decide, c6_sheet_layout "T" none "A" [("user", "alice")] [] [] (by decide)⟩

/-- C7: a record that lacks one of the discovered schema keys never makes
the append fail — any run whose first device has a record appends
successfully whatever the later records contain — and the missing key's
cell is left empty (no write ever targets it). -/
theorem c7_missing_key_empty_cell (tab : String) (file : Option Workbook)
    (h0 : String) (r0 : FieldMap) (h1 : String) (r1 : FieldMap) (i : Nat)
    (k : String) (hnd : (keysOf r0).Nodup) (hk : (keysOf r0).get? i = some k)
    (hmiss : getKey r1 k = none) :
    (∀ rest, ∃ wb n,
      output_to_excel tab (flattenRun ((h0, [r0]) :: rest)) file = Except.ok (wb, n)) ∧
    (∃ ws n, output_to_excel tab (flattenRun [(h0, [r0]), (h1, [r1])]) file
        = Except.ok ({ sheets := ws :: (loadWorkbook file).sheets }, n) ∧
      ws.getCell 3 (2 + i) = none) := by
  constructor
  · intro rest
    exact output_ok_of_first_nonempty tab file h0 r0 [] rest
  · refine ⟨_, _, output_spec tab file h0 r0 [] [(h1, [r1])] hnd, ?_⟩
    have hbody : bodyCells (keysOf r0) (rowsOf [(h0, [r0]), (h1, [r1])]) 2
        = recordCells (keysOf r0) 2 h0 r0 ++ recordCells (keysOf r0) 3 h1 r1 := by
      simp [rowsOf, bodyCells]
    rw [Sheet.getCell]
    apply lookupCell_eq_none
    intro e he hmatch
    have he3 : e.1 = 3 := hmatch.1
    have hei : e.2.1 = 2 + i := hmatch.2
    rw [hbody] at he
    simp only [headerCells, List.cons_append, List.mem_cons, List.mem_append] at he
    rcases he with he | he
    · subst he; simp at he3
    · rcases he with he | he | he
      · obtain ⟨q, hq, hqe⟩ := List.mem_map.mp he
        rw [← hqe] at he3
        simp at he3
      · simp only [recordCells, List.mem_cons] at he
        rcases he with he | he
        · subst he; simp at he3
        · obtain ⟨q, hq, hqe⟩ := List.mem_filterMap.mp he
          obtain ⟨v, hv, hev⟩ := Option.map_eq_some'.mp hqe
          rw [← hev] at he3
          simp at he3
      · simp only [recordCells, List.mem_cons] at he
        rcases he with he | he
        · subst he
          simp only at hei
          omega
        · obtain ⟨q, hq, hqe⟩ := List.mem_filterMap.mp he
          obtain ⟨v, hv, hev⟩ := Option.map_eq_some'.mp hqe
          obtain ⟨j, hj, hj1⟩ := mem_enumFrom_ex (keysOf r0) 2 q hq
          rw [← hev] at hei
          simp only at hei
          have hji : j = i := by omega
          subst hji
          have hqk : q.2 = k := Option.some.inj (hj.symm.trans hk)
          rw [hqk, hmiss] at hv
          cases hv

theorem c7_missing_key_empty_cell_witness :
    ((keysOf [("user", "alice"), ("ip", "10.0.0.1")]).Nodup ∧
     (keysOf [("user", "alice"), ("ip", "10.0.0.1")]).get? 1 = some "ip" ∧
     getKey [("user", "bob")] "ip" = none) ∧
    (∃ ws n, output_to_excel "T"
        (flattenRun [("A", [[("user", "alice"), ("ip", "10.0.0.1")]]),
          ("B", [[("user", "bob")]])]) none
        = Except.ok ({ sheets := ws :: (loadWorkbook none).sheets }, n) ∧
      ws.getCell 3 (2 + 1) = none) :=
  ⟨⟨by decide, by decide, by decide⟩,
   (c7_missing_key_empty_cell "T" none "A" [("user", "alice"), ("ip", "10.0.0.1")]
     "B" [("user", "bob")] 1 "ip" (by decide) (by decide) (by decide)).2⟩

/-- C8: appending under a fresh sheet name adds exactly one new sheet, at
index 0 and bearing exactly the requested name, and every pre-existing
sheet is left byte-for-byte unchanged (the code only ever writes into the
sheet object returned by `create_sheet`); and an erroring append leaves the
document file untouched. Two successive appends under distinct names
therefore leave the first run's sheet unmodified. -/
theorem c8_fresh_append_frame (tab : String) (file : Option Workbook) (h0 : String)
    (r0 : FieldMap) (rs0 : List FieldMap) (rest : List (String × List FieldMap))
    (hnd : (keysOf r0).Nodup)
    (hfresh : ∀ s ∈ (loadWorkbook file).sheets, pyLower s.title ≠ pyLower tab) :
    (∃ ws n, output_to_excel tab (flattenRun ((h0, r0 :: rs0) :: rest)) file
        = Except.ok ({ sheets := ws :: (loadWorkbook file).sheets }, n) ∧
      ws.title = tab) ∧
    (∀ (data : List Item) (e : PyError),
      output_to_excel tab data file = Except.error e →
      fileAfter (output_to_excel tab data file) file = file) := by
  constructor
  · refine ⟨_, _, output_spec tab file h0 r0 rs0 rest hnd, ?_⟩
    have hany : (sheetNames (loadWorkbook file)).any
        (fun n => pyLower n == pyLower tab) = false := by
      rw [List.any_eq_false]
      intro x hx
      obtain ⟨s, hs, hxs⟩ := List.mem_map.mp hx
      simp only [beq_iff_eq]
      rw [← hxs]
      exact hfresh s hs
    simp [avoidDuplicateName, hany]
  · intro data e he
    rw [he]
    rfl

/-- A document already holding an unrelated sheet named "S" with content,
for exercising the frame property of a fresh-name append. -/
def wbS : Workbook :=
  { sheets := [{ title := "S", cells := [(1, 1, "x")], tables := [], freezePanes := none }] }

theorem c8_fresh_append_frame_witness :
    ((keysOf [("user", "alice")]).Nodup ∧
     (∀ s ∈ (loadWorkbook (some wbS)).sheets, pyLower s.title ≠ pyLower "T")) ∧
    ∃ ws n, output_to_excel "T" (flattenRun [("A", [[("user", "alice")]])]) (some wbS)
      = Except.ok ({ sheets := ws :: (loadWorkbook (some wbS)).sheets }, n) ∧
      ws.title = "T" :=
  ⟨⟨by decide, by intro s hs; simp only [loadWorkbook, wbS] at hs; simp at hs; subst hs; decide⟩,
   (c8_fresh_append_frame "T" (some wbS) "A" [("user", "alice")] [] [] (by decide)
     (by intro s hs; simp only [loadWorkbook, wbS] at hs; simp at hs; subst hs; decide)).1⟩

/-- C9 counterexample: a device whose session establishes and whose command
execution then raises. The source has no try/finally around lines 98-99, so
the exception escapes before `net_connect.disconnect()` runs: the session
trace ends after the command, with no disconnect — an open connection is
leaked, contradicting the claim that termination always happens. -/
theorem c9_counterexample :
    show_vpn_sessiondb { connectOk := fun _ => true, sendCommand := fun _ _ => none } 1
        (mkDevice "fwl-dc1-vpn-a" "admin" "pw") []
      = (Except.error PyError.sendFailure,
         [SessionEvent.connect "fwl-dc1-vpn-a",
          SessionEvent.command "fwl-dc1-vpn-a" anyconnectCommand]) ∧
    SessionEvent.disconnect "fwl-dc1-vpn-a"
      ∉ [SessionEvent.connect "fwl-dc1-vpn-a",
         SessionEvent.command "fwl-dc1-vpn-a" anyconnectCommand] := ⟨rfl, by decide⟩

/-- C9 (amended): per successful establishment exactly one command is
issued; when command execution returns, the session is explicitly
terminated (the trace is connect, command, disconnect); but when command
execution raises after establishment, the session is NOT terminated — the
trace is connect, command with no disconnect event. -/
theorem c9_session_hygiene (net : Netmiko) (fuel : Nat) (dev : Device)
    (inputs : List String) :
    (∀ out, (show_vpn_sessiondb net fuel dev inputs).1 = Except.ok out →
      (show_vpn_sessiondb net fuel dev inputs).2
        = [SessionEvent.connect dev.host, SessionEvent.command dev.host anyconnectCommand,
           SessionEvent.disconnect dev.host]) ∧
    ((show_vpn_sessiondb net fuel dev inputs).1 = Except.error PyError.sendFailure →
      (show_vpn_sessiondb net fuel dev inputs).2
          = [SessionEvent.connect dev.host, SessionEvent.command dev.host anyconnectCommand] ∧
      SessionEvent.disconnect dev.host ∉ (show_vpn_sessiondb net fuel dev inputs).2) := by
  refine ⟨fun out h => show_ok_trace net fuel dev inputs out h, fun h => ?_⟩
  have ht := show_sendfail_trace net fuel dev inputs h
  refine ⟨ht, ?_⟩
  rw [ht]
  simp

theorem c9_session_hygiene_witness :
    (show_vpn_sessiondb { connectOk := fun _ => true, sendCommand := fun _ _ => some [] } 1
        (mkDevice "fw" "u" "p") []).2
      = [SessionEvent.connect "fw", SessionEvent.command "fw" anyconnectCommand,
         SessionEvent.disconnect "fw"] :=
  (c9_session_hygiene { connectOk := fun _ => true, sendCommand := fun _ _ => some [] }
    1 (mkDevice "fw" "u" "p") []).1 ([], mkDevice "fw" "u" "p", []) rfl

/-- C10: the quit check lowercases both answers, so a username OR a
password whose lowercase form is "q" (i.e. "q" or "Q") aborts with the quit
exit — consequently `get_creds` can never return a credential pair whose
password (or username) lowercases to "q", and quit at the initial prompt
kills the whole run. -/
theorem c10_quit_case_insensitive (un pw : String) (rest inputs : List String)
    (u2 p2 : String) (rest2 : List String) :
    ((pyLower un = "q" ∨ pyLower pw = "q") →
      get_creds (un :: pw :: rest) = Except.error PyError.quit) ∧
    (get_creds inputs = Except.ok ((u2, p2), rest2) →
      pyLower u2 ≠ "q" ∧ pyLower p2 ≠ "q") ∧
    (∀ (net : Netmiko) (fuel : Nat) (inventory : List String) (tab : String)
       (file : Option Workbook),
      get_creds inputs = Except.error PyError.quit →
      main net fuel inventory tab inputs file = Except.error PyError.quit) := by
  refine ⟨?_, ?_, ?_⟩
  · rintro (hq | hq)
    · simp [get_creds, beq_iff_eq, hq]
    · by_cases h1 : pyLower un = "q"
      · simp [get_creds, beq_iff_eq, h1]
      · simp [get_creds, beq_iff_eq, h1, hq]
  · intro h
    rcases inputs with _ | ⟨a, _ | ⟨b, r⟩⟩
    · simp [get_creds] at h
    · simp only [get_creds] at h
      split at h
      · simp at h
      · simp at h
    · simp only [get_creds] at h
      split at h
      · simp at h
      · split at h
        · simp at h
        · rename_i h1 h2
          simp only [beq_iff_eq] at h1 h2
          simp only [Except.ok.injEq, Prod.mk.injEq] at h
          obtain ⟨⟨hu, hp⟩, -⟩ := h
          subst hu
          subst hp
          exact ⟨h1, h2⟩
  · intro net fuel inventory tab file hq
    simp [main, hq]

theorem c10_quit_case_insensitive_witness :
    get_creds ["bob", "Q", "extra"] = Except.error PyError.quit :=
  (c10_quit_case_insensitive "bob" "Q" ["extra"] [] "" "" []).1 (Or.inr (by decide))

end AnyConnect
